import Mathlib

/-!
Verification development for the connectdeaf-ia repository.

Shallow embedding of the two services:
  * `connectdeaf-faq-api` (vector database wrapper, FAQ QA pipeline), and
  * `ai-api` (blob storage wrapper, certificate verification pipeline, FAQ
    chat use case).

External collaborators (Azure AI Search, Azure OpenAI, Azure Blob Storage,
Azure Document Intelligence OCR) are modelled as explicit oracles (functions
returning `Except`), and Python exception control flow becomes explicit
`Except`/`Option` plumbing.  Machine floats are carried opaquely as
`List Float`: no claim performs float arithmetic, only the vector length is
ever inspected.
-/

set_option autoImplicit false

namespace ConnectDeaf

/-- Byte strings (Python `bytes`) are modelled as lists of byte values. -/
abbrev Bytes := List Nat

/-- Model of `fastapi.HTTPException` (status code plus detail string). -/
structure HTTPException where
  status : Nat
  detail : String
deriving DecidableEq, Repr

/-- Model of `str(e)` for a starlette/fastapi `HTTPException`
(starlette defines `__str__` as the f-string of status and detail). -/
def http_exc_str (e : HTTPException) : String :=
  toString e.status ++ ": " ++ e.detail

/-- Status of a model route result: `none` when the route returned a body,
`some s` when it raised an `HTTPException` with status `s`. -/
def exceptStatus {α : Type} (r : Except HTTPException α) : Option Nat :=
  match r with
  | .ok _ => none
  | .error e => some e.status

/-- A value read out of a pandas column such as `df["doc_content"].values`:
either a Python string or some non-string value (e.g. `NaN` for a missing
field).  `isinstance(doc, str)` keeps only the first constructor. -/
inductive PyVal where
  | pstr (s : String)
  | nonstr
deriving DecidableEq, Repr

/-- Characters stripped by Python `str.strip()` (ASCII whitespace subset;
Python also strips further Unicode whitespace, which never occurs in the
strings this development evaluates). -/
def isPySpace (c : Char) : Bool :=
  c = ' ' || c = '\t' || c = '\n' || c = '\r' || c = '\x0b' || c = '\x0c'

/-- Model of Python `str.strip()`: drop whitespace from both ends. -/
def pystrip (s : String) : String :=
  String.mk (((s.data.dropWhile isPySpace).reverse.dropWhile isPySpace).reverse)

end ConnectDeaf

namespace ConnectDeaf.Storage

open ConnectDeaf

/-- State of the Azure Blob Storage account reached through
`settings.AZURE_STORAGE_CONNECTION_STRING`: which containers exist, which
blobs exist (keyed by container name and blob name), and whether the service
is reachable at all (a connection failure makes every remote call raise). -/
structure BlobStore where
  containers : String → Bool
  blobs : String → String → Option Bytes
  connectOk : Bool

/-- Model of `Storage.create_container` (src/ai-api/src/infra/storage.py,
lines 14-24): `create_container` raises `ResourceExistsError` when the
container already exists, which the code catches and converts into a client
for the existing container, so the net state effect is create-if-absent. -/
def create_container (st : BlobStore) (container_name : String) : BlobStore :=
  { st with containers := fun n => if n = container_name then true else st.containers n }

/-- Model of `Storage.upload_file` (src/ai-api/src/infra/storage.py,
lines 26-40): ensure the container, then `blob_client.upload_blob(content,
overwrite=True)` — with `overwrite=True` an existing blob at the same path is
replaced rather than raising `ResourceExistsError` — and return the
reference string `f"{container_name}/{filename}"`.  Upload errors are
re-raised by the Python code; the model covers the reachable-service
behaviour, in which the upsert always succeeds. -/
def upload_file (st : BlobStore) (container_name filename : String)
    (content : Bytes) : String × BlobStore :=
  let st1 := create_container st container_name
  ( container_name ++ "/" ++ filename,
    { st1 with
        blobs := fun c b =>
          if c = container_name then
            if b = filename then some content else st1.blobs c b
          else st1.blobs c b } )

/-- Model of Python `s.split("/", 1)` unpacked into two variables: `none`
when the string holds no `/` (the unpacking then raises `ValueError`),
otherwise the part before the first `/` and the whole remainder after it. -/
def split_once_aux : List Char → Option (List Char × List Char)
  | [] => none
  | c :: cs =>
    if c = '/' then some ([], cs)
    else (split_once_aux cs).map (fun p => (c :: p.1, p.2))

def split_once (s : String) : Option (String × String) :=
  (split_once_aux s.data).map (fun p => (String.mk p.1, String.mk p.2))

/-- Model of `Storage.download_file` (src/ai-api/src/infra/storage.py,
lines 42-58).  The whole body sits in a `try/except Exception` returning
`None`: a path with no `/` makes the two-variable unpacking of
`blob_path.split("/", 1)` raise `ValueError`; an unreachable service makes
the client calls raise; a missing blob makes `download_blob` raise — all of
them are caught and become `None`. -/
def download_file (st : BlobStore) (blob_path : String) : Option Bytes :=
  match split_once blob_path with
  | none => none
  | some (container_name, blob_name) =>
    if st.connectOk then
      st.blobs container_name blob_name
    else
      none

theorem BlobStore.ext_model {a b : BlobStore}
    (hc : a.containers = b.containers) (hb : a.blobs = b.blobs)
    (ho : a.connectOk = b.connectOk) : a = b := by
  cases a; cases b; simp_all

end ConnectDeaf.Storage

namespace ConnectDeaf.VectorDB

open ConnectDeaf

/-- The fixed index name from `AzureSearchVectorDB.__init__`. -/
def index_name : String := "faq-index"

/-- The fixed embedding dimension from `AzureSearchVectorDB.__init__`. -/
def embeddings_dimension : Nat := 1536

/-- Model of the Azure AI Search index list: `list_index_names` reports the
names of the existing indexes (each name occurs at most once on the real
service; the model carries that as a hypothesis where needed). -/
def list_index_names (names : List String) : List String := names

/-- Model of `SearchIndexClient.create_or_update_index` restricted to the
fixed schema this code always submits: upsert of the named index (no
duplicate is ever created; re-submitting the same schema replaces it). -/
def create_or_update_index (names : List String) (n : String) : List String :=
  if n ∈ names then names else names ++ [n]

/-- Model of the index-ensuring tail of `AzureSearchVectorDB.__init__`
(src/connectdeaf-faq-api/src/infra/vector_database.py, lines 61-62 and
139-158): if `index_name` is not among the existing index names, call
`_create_vector_index`, which submits `create_or_update_index`.  The
returned flag records whether a creation call was attempted.  The model is
of the reachable, healthy backing service, on which neither listing nor
creation errors. -/
def construct_db (names : List String) : List String × Bool :=
  if index_name ∈ list_index_names names then (names, false)
  else (create_or_update_index names index_name, true)

/-- Constructing the vector store `n` times in sequence against the same
backing service; the second component counts the creation attempts made. -/
def construct_db_iter : Nat → List String → List String × Nat
  | 0, names => (names, 0)
  | n + 1, names =>
    let step := construct_db names
    let rest := construct_db_iter n step.1
    (rest.1, (if step.2 then 1 else 0) + rest.2)

end ConnectDeaf.VectorDB

namespace ConnectDeaf.VectorDB

open ConnectDeaf

/-- One record of the Azure AI Search `faq-index`, with the four fields the
schema in `_get_index_fields` declares (the vector field is named
`document_vector` in the schema; the upload dict in `insert_document_faq`
uses key `doc_content_embeddings` — field names do not matter to the model,
which keeps the uploaded record shape). -/
structure SearchIndexDoc where
  id : String
  dtype : String
  doc_content : String
  doc_content_embeddings : List Float

/-- State of the documents stored in the search index. -/
structure AzureSearchState where
  docs : List SearchIndexDoc

/-- Environment of external calls made during an insertion: the Azure OpenAI
embedding endpoint (which may raise), and whether
`search_client.upload_documents` succeeds for a given document. -/
structure InsertEnv where
  embedSvc : String → Except String (List Float)
  uploadOk : SearchIndexDoc → Bool

/-- Model of `AzureSearchVectorDB._generate_embeddings`
(src/connectdeaf-faq-api/src/infra/vector_database.py, lines 251-274): call
the embedding service on the single-element input list and return the one
embedding of the response; any exception is caught, logged, and turned into
the empty list `[]`. -/
def generate_embeddings (embedSvc : String → Except String (List Float))
    (content : String) : List Float :=
  match embedSvc content with
  | .ok e => e
  | .error _ => []

/-- Model of the `json.dumps({"question": q, "answer": a})` string built in
`insert_document_faq` (default separators; the escaping covers backslash and
double quote, the characters exercised by this development — Python
additionally escapes control and non-ASCII characters). -/
def jsonEscape (s : String) : String :=
  String.mk (s.data.foldr
    (fun c acc =>
      match c with
      | '\\' => '\\' :: '\\' :: acc
      | '"' => '\\' :: '"' :: acc
      | c => c :: acc) [])

def json_dumps_qa (question answer : String) : String :=
  "\x7b\"question\": \"" ++ jsonEscape question ++ "\", \"answer\": \""
    ++ jsonEscape answer ++ "\"\x7d"

/-- Model of `AzureSearchVectorDB.insert_document_faq`
(src/connectdeaf-faq-api/src/infra/vector_database.py, lines 64-90): JSON-
encode the pair, generate embeddings (empty on embedding failure), build the
document with a fresh id and `type` `"faq"`, and upload it.  The whole body
is inside `try/except`, so an upload failure leaves the state unchanged and
the function still returns normally; no dimension check is performed
anywhere. -/
def insert_document_faq (env : InsertEnv) (newId : String)
    (st : AzureSearchState) (question answer : String) : AzureSearchState :=
  let data_str := json_dumps_qa question answer
  let doc_embeddings := generate_embeddings env.embedSvc data_str
  let doc : SearchIndexDoc := ⟨newId, "faq", data_str, doc_embeddings⟩
  if env.uploadOk doc then { st with docs := st.docs ++ [doc] } else st

/-- Model of `AzureSearchVectorDB.insert_document`
(src/connectdeaf-faq-api/src/infra/vector_database.py, lines 92-114): same
shape with `type` `"doc"` and the raw content, again with no dimension
check and all exceptions swallowed. -/
def insert_document (env : InsertEnv) (newId : String)
    (st : AzureSearchState) (content : String) : AzureSearchState :=
  let doc_embeddings := generate_embeddings env.embedSvc content
  let doc : SearchIndexDoc := ⟨newId, "doc", content, doc_embeddings⟩
  if env.uploadOk doc then { st with docs := st.docs ++ [doc] } else st

/-- A Python dict with string keys and string values, as produced by
`json.load` for one entry of the `"faq"` array of the batch file. -/
abbrev PyDict := List (String × String)

/-- Model of the loop of `AzureSearchVectorDB.insert_documents_from_json`
(src/connectdeaf-faq-api/src/infra/vector_database.py, lines 220-236) after
the file has been read and parsed.  `item["question"]` / `item["answer"]`
raise `KeyError` on a record missing the key; that exception is caught by
the outer `try/except`, which ends the loop (the remaining records are not
attempted).  A record whose keys are present is passed to
`insert_document_faq`, which swallows every insertion error internally, so
the loop always continues past it.  The second component lists the records
for which `insert_document_faq` was invoked, in order. -/
def insert_batch (env : InsertEnv) (uuid : Nat → String) (n : Nat)
    (records : List PyDict) (st : AzureSearchState) :
    AzureSearchState × List PyDict :=
  match records with
  | [] => (st, [])
  | item :: rest =>
    match List.lookup "question" item, List.lookup "answer" item with
    | some q, some a =>
      let st1 := insert_document_faq env (uuid n) st q a
      let tail := insert_batch env uuid (n + 1) rest st1
      (tail.1, item :: tail.2)
    | _, _ => (st, [])

/-- The call issued to `search_client.search` by
`AzureSearchVectorDB.search_similar_documents`. -/
structure SearchCall where
  top : Nat
  vector : List Float
  vectorFields : String
  selectFields : List String
  filter : String

/-- Model of `AzureSearchVectorDB.search_similar_documents`
(src/connectdeaf-faq-api/src/infra/vector_database.py, lines 116-137) up to
the issued search call: embed the query, build the `VectorizedQuery` over
the `document_vector` field, and pass `filter=filters if filters else
"type eq \x27doc\x27"` — Python truthiness makes both `None` and the empty
string fall back to the default filter, and any other string is passed
through unchanged.  `filters : Option String` carries `None` as `none`. -/
def search_similar_documents (embedSvc : String → Except String (List Float))
    (query : String) (k : Nat) (filters : Option String) : SearchCall :=
  let query_embedding := generate_embeddings embedSvc query
  { top := k
    vector := query_embedding
    vectorFields := "document_vector"
    selectFields := ["id", "doc_content", "type"]
    filter :=
      match filters with
      | some f => if f = "" then "type eq \x27doc\x27" else f
      | none => "type eq \x27doc\x27" }

end ConnectDeaf.VectorDB

namespace ConnectDeaf.Json

/-- JSON values of the subset this system exchanges: strings, and objects
with string keys.  FAQ documents store `json.dumps({"question": q,
"answer": a})`, which lies in this subset. -/
inductive JValue where
  | jstr (s : String)
  | jobj (fields : List (String × JValue))

/-- JSON insignificant whitespace. -/
def skipWs : List Char → List Char
  | c :: cs =>
    if c = ' ' || c = '\t' || c = '\n' || c = '\r' then skipWs cs else c :: cs
  | [] => []

/-- The two-character escape sequences of JSON strings (the `\uXXXX` form is
outside the modelled subset and is rejected). -/
def escChar (e : Char) : Option Char :=
  if e = '"' then some '"'
  else if e = '\\' then some '\\'
  else if e = '/' then some '/'
  else if e = 'n' then some '\n'
  else if e = 't' then some '\t'
  else if e = 'r' then some '\r'
  else if e = 'b' then some '\x08'
  else if e = 'f' then some '\x0c'
  else none

/-- Parse the body of a JSON string literal, the opening quote already
consumed; returns the decoded string and the rest of the input. -/
def parseStringBody : List Char → Option (String × List Char)
  | [] => none
  | '"' :: rest => some ("", rest)
  | '\\' :: e :: rest =>
    match escChar e with
    | none => none
    | some c =>
      match parseStringBody rest with
      | none => none
      | some (s, r) => some (String.mk (c :: s.data), r)
  | c :: rest =>
    match parseStringBody rest with
    | none => none
    | some (s, r) => some (String.mk (c :: s.data), r)

mutual

/-- Parse one JSON value of the subset (string or object), fuel-bounded. -/
def parseValue (fuel : Nat) (cs : List Char) : Option (JValue × List Char) :=
  match fuel with
  | 0 => none
  | fuel + 1 =>
    match skipWs cs with
    | '"' :: rest =>
      match parseStringBody rest with
      | none => none
      | some (s, r) => some (JValue.jstr s, r)
    | '{' :: rest =>
      match skipWs rest with
      | '}' :: r2 => some (JValue.jobj [], r2)
      | cs2 =>
        match parseMembers fuel cs2 with
        | none => none
        | some (fs, r2) => some (JValue.jobj fs, r2)
    | _ => none

/-- Parse a non-empty member list of a JSON object, positioned right after
the opening brace or after a comma; consumes the closing brace. -/
def parseMembers (fuel : Nat) (cs : List Char) :
    Option (List (String × JValue) × List Char) :=
  match fuel with
  | 0 => none
  | fuel + 1 =>
    match skipWs cs with
    | '"' :: rest =>
      match parseStringBody rest with
      | none => none
      | some (k, r1) =>
        match skipWs r1 with
        | ':' :: r2 =>
          match parseValue fuel r2 with
          | none => none
          | some (v, r3) =>
            match skipWs r3 with
            | ',' :: r4 =>
              match parseMembers fuel r4 with
              | none => none
              | some (fs, r5) => some ((k, v) :: fs, r5)
            | '}' :: r4 => some ([(k, v)], r4)
            | _ => none
        | _ => none
    | _ => none

end

/-- Model of Python `json.loads` on the subset of JSON this system exchanges
(strings, and objects with string keys).  On that subset it agrees with
Python: the whole input must be consumed apart from trailing whitespace, and
anything else raises `json.JSONDecodeError`, modelled as `.error`.  Every
claim evaluates it only on subset inputs. -/
def json_loads (s : String) : Except String JValue :=
  match parseValue (s.length + 1) s.data with
  | some (v, rest) =>
    match skipWs rest with
    | [] => .ok v
    | _ => .error "JSONDecodeError: Extra data"
  | none => .error "JSONDecodeError: Expecting value"

/-- Member access on a decoded JSON object: Python `json.loads` builds a
dict in which a repeated key keeps its last occurrence, so lookup is
last-wins. -/
def jget (fields : List (String × JValue)) (key : String) : Option JValue :=
  List.lookup key fields.reverse

end ConnectDeaf.Json

namespace ConnectDeaf.Faq

open ConnectDeaf ConnectDeaf.Json

/-- Role-tagged chat messages sent to the OpenAI chat-completion call. -/
abbrev Messages := List (String × String)

/-- The fixed apology literal shared by both QA pipelines. -/
def apology : String :=
  "Desculpe, não consegui encontrar uma resposta para sua pergunta."

/-- The Python strings of the pandas column `df["doc_content"].values`. -/
def pyval_strings (docs : List PyVal) : List String :=
  docs.filterMap fun d =>
    match d with
    | .pstr s => some s
    | .nonstr => none

/-- One element of the FAQService list comprehension
(src/connectdeaf-faq-api/src/services/faq.py, lines 38-44):
`json.loads(doc)["answer"]`.  A decode failure raises
`json.JSONDecodeError`; indexing a decoded string raises `TypeError`;
a decoded object without the key raises `KeyError`; otherwise the field
value (an arbitrary JSON value) is produced. -/
def comprehension_item_faq (s : String) : Except String JValue :=
  match json_loads s with
  | .error e => .error e
  | .ok (JValue.jstr _) => .error "TypeError: string indices must be integers"
  | .ok (JValue.jobj fs) =>
    match jget fs "answer" with
    | none => .error "KeyError: answer"
    | some v => .ok v

/-- One element of the FaqUseCase list comprehension
(src/ai-api/src/routes/chat.py, lines 60-66):
`json.loads(doc).get("answer", "")`.  A decode failure raises; `.get` on a
decoded string raises `AttributeError`; a missing key yields the default
empty string, which stays in the joined list. -/
def comprehension_item_ai (s : String) : Except String JValue :=
  match json_loads s with
  | .error e => .error e
  | .ok (JValue.jstr _) =>
    .error "AttributeError: str object has no attribute get"
  | .ok (JValue.jobj fs) => .ok ((jget fs "answer").getD (JValue.jstr ""))

/-- The full list comprehension: elements are produced left to right and the
first raised exception aborts the whole comprehension. -/
def answers_list (item : String → Except String JValue) :
    List String → Except String (List JValue)
  | [] => .ok []
  | s :: rest =>
    match item s with
    | .error e => .error e
    | .ok v =>
      match answers_list item rest with
      | .error e => .error e
      | .ok vs => .ok (v :: vs)

/-- Argument check of `" ".join(...)`: every element must be a `str`,
otherwise `join` raises `TypeError`. -/
def allStrings : List JValue → Option (List String)
  | [] => some []
  | JValue.jstr s :: rest => (allStrings rest).map (s :: ·)
  | JValue.jobj _ :: _ => none

/-- Model of `" ".join(list)`. -/
def join_strs (vs : List JValue) : Except String String :=
  match allStrings vs with
  | some ss => .ok (String.intercalate " " ss)
  | none => .error "TypeError: sequence item: expected str instance"

/-- Context assembly of FAQService (src/connectdeaf-faq-api/src/services/
faq.py, lines 38-44): keep the string entries (`isinstance(doc, str)`),
run the comprehension, then join with a single space. -/
def combined_content_faq (docs : List PyVal) : Except String String :=
  match answers_list comprehension_item_faq (pyval_strings docs) with
  | .error e => .error e
  | .ok vs => join_strs vs

/-- Context assembly of FaqUseCase (src/ai-api/src/routes/chat.py, lines
60-66), identical except for the `.get("answer", "")` default. -/
def combined_content_ai (docs : List PyVal) : Except String String :=
  match answers_list comprehension_item_ai (pyval_strings docs) with
  | .error e => .error e
  | .ok vs => join_strs vs

end ConnectDeaf.Faq

namespace ConnectDeaf.Faq

open ConnectDeaf ConnectDeaf.Json

/-- The system prompt of `FAQService._generate_response`
(src/connectdeaf-faq-api/src/services/faq.py, lines 50-56). -/
def faq_system_prompt : String :=
  "Você é um assistente útil que responde exclusivamente com base nos documentos fornecidos. "
    ++ "Se não souber a resposta, diga \x27Não sei\x27 ou \x27Essa informação não está disponível\x27."

/-- The three role-tagged messages of `FAQService._generate_response`. -/
def faq_messages (combined_content query : String) : Messages :=
  [("system", faq_system_prompt),
   ("assistant", "Contexto: " ++ combined_content),
   ("user", query)]

/-- Model of `FAQService._generate_response`
(src/connectdeaf-faq-api/src/services/faq.py, lines 25-65).  The body runs
inside one `try/except Exception`: similarity search (an oracle covering
`search_similar_documents` and the pandas column read, yielding the values
of `df["doc_content"].values`), context assembly, then the chat completion
(an oracle over the built messages; its `message.content` is returned
without stripping).  Any exception anywhere in the block is caught and the
fixed apology is returned as a normal value. -/
def faqservice_generate_response (search : Except String (List PyVal))
    (chat : Messages → Except String String) (query : String) : String :=
  match search with
  | .error _ => apology
  | .ok docs =>
    match combined_content_faq docs with
    | .error _ => apology
    | .ok combined_content =>
      match chat (faq_messages combined_content query) with
      | .error _ => apology
      | .ok r => r

/-- Model of the `/api/faq/chat` route of connectdeaf-faq-api
(src/connectdeaf-faq-api/src/routes/faq.py, lines 16-31): the handler wraps
`faq_service.chat` in `try/except` and re-raises a 500, but
`_generate_response` catches every exception itself and always returns a
normal value, so the route always answers 200 with that value. -/
def chat_faq_route (search : Except String (List PyVal))
    (chat : Messages → Except String String) (query : String) :
    Except HTTPException String :=
  .ok (faqservice_generate_response search chat query)

/-- The system prompt of `FaqUseCase._generate_response`
(src/ai-api/src/routes/chat.py, lines 71-75). -/
def faquc_system_prompt : String :=
  "Você é um assistente útil chamado FAQBot, responsável por responder perguntas de usuários com base nos documentos fornecidos. "
    ++ "Você deve sempre se basear exclusivamente no conteúdo fornecido. Caso a resposta não esteja presente, responda educadamente que não sabe ou que a informação não está disponível. "
    ++ "Seja direto, claro e profissional em suas respostas."

/-- The three role-tagged messages of `FaqUseCase._generate_response`. -/
def faquc_messages (combined_content query : String) : Messages :=
  [("system", faquc_system_prompt),
   ("assistant",
    "Aqui estão informações relevantes para responder à consulta: "
      ++ combined_content ++ "."),
   ("user", query)]

/-- Model of `FaqUseCase._generate_response` (src/ai-api/src/routes/chat.py,
lines 45-100): same single `try/except Exception` shape as the FAQService
variant, with the `.get("answer", "")` context assembly and with `.strip()`
applied to the successful chat-completion content before returning. -/
def faqusecase_generate_response (search : Except String (List PyVal))
    (chat : Messages → Except String String) (query : String) : String :=
  match search with
  | .error _ => apology
  | .ok docs =>
    match combined_content_ai docs with
    | .error _ => apology
    | .ok combined_content =>
      match chat (faquc_messages combined_content query) with
      | .error _ => apology
      | .ok r => pystrip r

/-- Model of the `/api/faq/chat` route of ai-api
(src/ai-api/src/routes/chat.py, lines 107-126): as in the other service,
the use case never raises, so the route always answers 200. -/
def ai_chat_route (search : Except String (List PyVal))
    (chat : Messages → Except String String) (query : String) :
    Except HTTPException String :=
  .ok (faqusecase_generate_response search chat query)

end ConnectDeaf.Faq

namespace ConnectDeaf.Verify

open ConnectDeaf ConnectDeaf.Storage ConnectDeaf.Faq

/-- The system prompt of `VerifyFileUseCase._generate_response`
(src/ai-api/src/routes/certificate.py, lines 127-134). -/
def verify_system_prompt (professional_name : String) : String :=
  "Você é um assistente especializado em validação de certificados. "
    ++ "Analise o conteúdo extraído do documento e verifique se ele contém todas as informações necessárias para que o certificado seja considerado válido. "
    ++ "Considere o nome do profissional, o número do registro e a data de validade. "
    ++ "O nome do profissional informado é \x27" ++ professional_name ++ "\x27. "
    ++ "Se todas as informações estiverem corretas e consistentes, responda \x27Válido\x27. "
    ++ "Caso contrário, responda \x27Inválido\x27."

/-- The two role-tagged messages of `VerifyFileUseCase._generate_response`. -/
def verify_messages (extracted_text professional_name : String) : Messages :=
  [("system", verify_system_prompt professional_name),
   ("user", extracted_text)]

/-- Model of `VerifyFileUseCase._ocr` (src/ai-api/src/routes/certificate.py,
lines 107-121): the OCR service (an oracle over the document bytes) either
returns the extracted text or raises an `AzureError`, which is caught and
re-raised as `HTTPException(500)`. -/
def verify_ocr (ocr : Bytes → Except String String) (doc_content : Bytes) :
    Except HTTPException String :=
  match ocr doc_content with
  | .ok extracted_text => .ok extracted_text
  | .error e => .error ⟨500, "Erro ao realizar OCR: " ++ e⟩

/-- Model of `VerifyFileUseCase._generate_response`
(src/ai-api/src/routes/certificate.py, lines 123-151): invoke the chat
completion on the built messages; on success return
`message.content.strip()` unconstrained; on any exception raise
`HTTPException(500)`. -/
def verify_generate_response (gen : Messages → Except String String)
    (extracted_text professional_name : String) : Except HTTPException String :=
  match gen (verify_messages extracted_text professional_name) with
  | .ok result_text => .ok (pystrip result_text)
  | .error e => .error ⟨500, "Erro ao gerar resposta via OpenAI: " ++ e⟩

deriving instance DecidableEq for Except

/-- Result of one run of `VerifyFileUseCase.execute`, instrumented with
whether the generation stage (`_generate_response`) was ever entered. -/
structure VerifyOutcome where
  outcome : Except HTTPException String
  generationCalled : Bool
deriving DecidableEq

/-- Model of `VerifyFileUseCase.execute`
(src/ai-api/src/routes/certificate.py, lines 153-169):
download — `if not content_bytes` treats both `None` and the empty byte
string as absence and raises 404; OCR; `if not extracted_text.strip()`
raises 500 before `_generate_response` is ever invoked; finally the
generation stage, whose string becomes the `response` field of
`VerifyDocumentResponse`. -/
def verify_execute (st : BlobStore) (ocr : Bytes → Except String String)
    (gen : Messages → Except String String)
    (document_path professional_name : String) : VerifyOutcome :=
  match download_file st document_path with
  | none => ⟨.error ⟨404, "Arquivo não encontrado"⟩, false⟩
  | some content_bytes =>
    if content_bytes.isEmpty then
      ⟨.error ⟨404, "Arquivo não encontrado"⟩, false⟩
    else
      match verify_ocr ocr content_bytes with
      | .error e => ⟨.error e, false⟩
      | .ok extracted_text =>
        if pystrip extracted_text = "" then
          ⟨.error ⟨500, "Falha na extração de texto"⟩, false⟩
        else
          ⟨verify_generate_response gen extracted_text professional_name, true⟩

/-- Model of the `/api/documents/verify_file` route handler
(src/ai-api/src/routes/certificate.py, lines 193-211): the handler wraps
`verify_usecase.execute` in `try/except Exception` and re-raises every
caught exception as `HTTPException(500, f"Failed: {e}")`.
`fastapi.HTTPException` subclasses `Exception`, so the use case's own
`HTTPException`s — including the 404 — are caught here too and re-raised
with status 500 (the f-string renders the caught exception through
starlette's `__str__`). -/
def verify_file_route (st : BlobStore) (ocr : Bytes → Except String String)
    (gen : Messages → Except String String)
    (document_path professional_name : String) : Except HTTPException String :=
  match (verify_execute st ocr gen document_path professional_name).outcome with
  | .ok r => .ok r
  | .error e => .error ⟨500, "Failed: " ++ http_exc_str e⟩

end ConnectDeaf.Verify

namespace ConnectDeaf.Faq

open ConnectDeaf ConnectDeaf.Json

/-- Per-entry extraction as the specification words it for the successful
case: the content parses as JSON to an object carrying a string `answer`
field.  `none` covers every entry the specification says is skipped. -/
def specItem_faq (s : String) : Option String :=
  match json_loads s with
  | .ok (JValue.jobj fs) =>
    match jget fs "answer" with
    | some (JValue.jstr a) => some a
    | _ => none
  | _ => none

/-- Per-entry extraction matching the ai-api comprehension on good entries:
like `specItem_faq`, except a parsed object without the `answer` key yields
the empty string (the `.get` default) instead of being dropped. -/
def specItem_ai (s : String) : Option String :=
  match json_loads s with
  | .ok (JValue.jobj fs) =>
    match jget fs "answer" with
    | some (JValue.jstr a) => some a
    | none => some ""
    | some (JValue.jobj _) => none
  | _ => none

/-- All-or-nothing per-entry extraction over a list of strings: `some` of
the extracted answers exactly when every entry extracts. -/
def extractStrs (specIt : String → Option String) :
    List String → Option (List String)
  | [] => some []
  | s :: rest =>
    match specIt s with
    | none => none
    | some a =>
      match extractStrs specIt rest with
      | none => none
      | some as => some (a :: as)

/-- All-or-nothing extraction over the raw column values: non-string
entries are skipped, string entries must extract. -/
def extractAnswers (specIt : String → Option String) (docs : List PyVal) :
    Option (List String) :=
  extractStrs specIt (pyval_strings docs)

/-- Modelled from the claim wording of C5 (spec section 4.3): parse each
document's content as JSON and extract its `answer` field, SKIP (never fail
on) entries whose content is absent, not a string, unparseable JSON, or
missing the `answer` key, and join the extracted strings with a single
space separator in the original order.  This is the specification-side
assembler, to be compared against `combined_content_faq` /
`combined_content_ai`, which are translated from the code. -/
def combined_content_claim (docs : List PyVal) : String :=
  String.intercalate " "
    (docs.filterMap fun d =>
      match d with
      | .nonstr => none
      | .pstr s => specItem_faq s)

end ConnectDeaf.Faq

section SanityEvaluation

/- Concrete evaluations checking that the JSON-subset parser and the string
helpers compute the values Python computes on the inputs this development
exercises. -/

open ConnectDeaf ConnectDeaf.Json ConnectDeaf.Faq

example : json_loads "\x7b\x7d" = .ok (JValue.jobj []) := by rfl
example : json_loads "\x7b\"answer\": \"oi\"\x7d"
    = .ok (JValue.jobj [("answer", JValue.jstr "oi")]) := by rfl
example : (json_loads "not json").toOption = none := by rfl
example : combined_content_faq [PyVal.pstr "\x7b\x7d"]
    = .error "KeyError: answer" := by rfl
example : combined_content_faq
    [PyVal.pstr "\x7b\"answer\": \"a\"\x7d", PyVal.nonstr,
     PyVal.pstr "\x7b\"question\": \"q\", \"answer\": \"b\"\x7d"]
    = .ok "a b" := by rfl
example : combined_content_claim [PyVal.pstr "\x7b\x7d"] = "" := by rfl
example : pystrip "  \t\n " = "" := by rfl
example : pystrip " Válido \n" = "Válido" := by rfl
example : ConnectDeaf.VectorDB.json_dumps_qa "q" "a"
    = "\x7b\"question\": \"q\", \"answer\": \"a\"\x7d" := by rfl
example : ConnectDeaf.Json.json_loads (ConnectDeaf.VectorDB.json_dumps_qa "q" "a")
    = .ok (JValue.jobj [("question", JValue.jstr "q"), ("answer", JValue.jstr "a")]) := by rfl

end SanityEvaluation

namespace ConnectDeaf.VectorDB

open ConnectDeaf

lemma construct_db_count (names : List String)
    (h : names.count index_name ≤ 1) :
    (construct_db names).1.count index_name = 1 := by
  by_cases hmem : index_name ∈ names
  · have hpos : 0 < names.count index_name := List.count_pos_iff.mpr hmem
    simp only [construct_db, list_index_names, if_pos hmem]
    omega
  · have hzero : names.count index_name = 0 := List.count_eq_zero.mpr hmem
    simp [construct_db, list_index_names, create_or_update_index, hmem, hzero]

lemma construct_db_stable (names : List String) (h : index_name ∈ names) :
    construct_db names = (names, false) := by
  simp [construct_db, list_index_names, h]

lemma construct_db_iter_stable (n : Nat) (names : List String)
    (h : construct_db names = (names, false)) :
    construct_db_iter n names = (names, 0) := by
  induction n with
  | zero => rfl
  | succ m ih => simp [construct_db_iter, h, ih]

lemma mem_of_count_one (names : List String)
    (h : names.count index_name = 1) : index_name ∈ names :=
  List.count_pos_iff.mp (by omega)

theorem insert_batch_attempts (env : InsertEnv) (uuid : Nat → String) :
    ∀ (records : List PyDict) (n : Nat) (st : AzureSearchState),
    (∀ r ∈ records,
      (List.lookup "question" r).isSome ∧ (List.lookup "answer" r).isSome) →
    (insert_batch env uuid n records st).2 = records := by
  intro records
  induction records with
  | nil => intro n st _; rfl
  | cons item rest ih =>
    intro n st h
    obtain ⟨h1, h2⟩ := h item (List.mem_cons_self item rest)
    obtain ⟨q, hq⟩ := Option.isSome_iff_exists.mp h1
    obtain ⟨a, ha⟩ := Option.isSome_iff_exists.mp h2
    simp only [insert_batch, hq, ha]
    exact congrArg (List.cons item)
      (ih (n + 1) _ (fun r hr => h r (List.mem_cons_of_mem _ hr)))

/-- C1: the claim says every insertion stores an embedding vector of length
exactly 1536 and rejects a mismatched (in particular empty) vector at
insertion time.  The code has no dimension check: when the embedding service
errors, `_generate_embeddings` returns `[]` and `insert_document_faq`
uploads the document with that empty vector — the document is stored, with
embedding length 0 ≠ 1536, instead of being rejected. -/
theorem C1_embedding_failure_inserts_empty_vector :
    insert_document_faq
        ⟨fun _ => .error "embedding request failed", fun _ => true⟩
        "id-1" ⟨[]⟩ "Pergunta?" "Resposta."
      = ⟨[⟨"id-1", "faq", json_dumps_qa "Pergunta?" "Resposta.", []⟩]⟩
    ∧ ([] : List Float).length ≠ embeddings_dimension :=
  ⟨rfl, by decide⟩

/-- C6: for every batch run of `insert_documents_from_json` over records
that carry both keys, every record is passed to `insert_document_faq`, for
every behaviour of the embedding service and of the upload call — a failed
insertion is swallowed inside `insert_document_faq` and never aborts the
remaining insertions. -/
theorem C6_batch_insert_best_effort (env : InsertEnv) (uuid : Nat → String)
    (records : List PyDict) (st : AzureSearchState)
    (h : ∀ r ∈ records,
      (List.lookup "question" r).isSome ∧ (List.lookup "answer" r).isSome) :
    (insert_batch env uuid 0 records st).2 = records :=
  insert_batch_attempts env uuid records 0 st h

/-- Witness for C6: a concrete two-record batch in which every embedding
call errors and every upload fails, yet both records are attempted. -/
theorem C6_batch_insert_best_effort_witness :
    (insert_batch ⟨fun _ => .error "boom", fun _ => false⟩ (fun _ => "id") 0
        [[("question", "q1"), ("answer", "a1")],
         [("question", "q2"), ("answer", "a2")]] ⟨[]⟩).2
      = [[("question", "q1"), ("answer", "a1")],
         [("question", "q2"), ("answer", "a2")]] :=
  C6_batch_insert_best_effort _ _ _ _ (by decide)

/-- C7: constructing the vector store N ≥ 1 times against the same backing
service (which holds at most one index per name) leaves exactly one index
named `faq-index`, at most one creation call is ever attempted (so the 2nd
through Nth constructions never attempt creation), and a further
construction on the resulting state is a no-op that skips creation. -/
theorem C7_ensure_index_idempotent (names0 : List String) (N : Nat)
    (hN : 1 ≤ N) (h0 : names0.count index_name ≤ 1) :
    (construct_db_iter N names0).1.count index_name = 1
    ∧ (construct_db_iter N names0).2 ≤ 1
    ∧ construct_db (construct_db_iter N names0).1
        = ((construct_db_iter N names0).1, false) := by
  obtain ⟨M, rfl⟩ : ∃ M, N = M + 1 := ⟨N - 1, by omega⟩
  have hcount : (construct_db names0).1.count index_name = 1 :=
    construct_db_count names0 h0
  have hstable : construct_db (construct_db names0).1
      = ((construct_db names0).1, false) :=
    construct_db_stable _ (mem_of_count_one _ hcount)
  have hiter : construct_db_iter M (construct_db names0).1
      = ((construct_db names0).1, 0) :=
    construct_db_iter_stable M _ hstable
  refine ⟨?_, ?_, ?_⟩
  · simp [construct_db_iter, hiter, hcount]
  · simp only [construct_db_iter, hiter]
    split <;> simp
  · simp [construct_db_iter, hiter, hstable]

/-- Witness for C7: three constructions against an initially empty service
yield one `faq-index`, one creation attempt, and a stable state. -/
theorem C7_ensure_index_idempotent_witness :
    (construct_db_iter 3 []).1.count index_name = 1
    ∧ (construct_db_iter 3 []).2 ≤ 1
    ∧ construct_db (construct_db_iter 3 []).1
        = ((construct_db_iter 3 []).1, false) :=
  C7_ensure_index_idempotent [] 3 (by decide) (by decide)

/-- C8: the filter passed to the k-nearest-neighbor search call is the
default `type eq \x27doc\x27` exactly when the caller passes no filter
expression (`None` or the empty string, both falsy in
`filters if filters else ...`), and the caller's expression unchanged
otherwise. -/
theorem C8_default_search_filter
    (embedSvc : String → Except String (List Float)) (q : String) (k : Nat)
    (filters : Option String) (f : String) :
    ((filters = none ∨ filters = some "") →
      (search_similar_documents embedSvc q k filters).filter
        = "type eq \x27doc\x27")
    ∧ (filters = some f → f ≠ "" →
      (search_similar_documents embedSvc q k filters).filter = f) := by
  constructor
  · rintro (rfl | rfl) <;> simp [search_similar_documents]
  · rintro rfl hf
    simp [search_similar_documents, hf]

/-- Witness for C8: concrete calls with no filter and with a non-empty
filter expression. -/
theorem C8_default_search_filter_witness :
    (search_similar_documents (fun _ => .error "down") "oi" 3 none).filter
      = "type eq \x27doc\x27"
    ∧ (search_similar_documents (fun _ => .error "down") "oi" 3
        (some "type eq \x27faq\x27")).filter = "type eq \x27faq\x27" :=
  ⟨(C8_default_search_filter (fun _ => .error "down") "oi" 3 none "").1
      (Or.inl rfl),
   (C8_default_search_filter (fun _ => .error "down") "oi" 3
      (some "type eq \x27faq\x27") "type eq \x27faq\x27").2 rfl (by decide)⟩

end ConnectDeaf.VectorDB

namespace ConnectDeaf.Storage

open ConnectDeaf

/-- C10: `upload_file` always uploads with `overwrite=True`: for every prior
storage state — including one already holding a blob at the same path — the
upload succeeds, the blob at (container, filename) afterwards holds exactly
the new content, the returned reference is `container ++ "/" ++ filename`,
and repeating the same upload returns the same reference and leaves the
state identical (idempotence). -/
theorem C10_upload_overwrite_idempotent (st : BlobStore)
    (container_name filename : String) (content : Bytes) :
    (upload_file st container_name filename content).1
      = container_name ++ "/" ++ filename
    ∧ (upload_file st container_name filename content).2.blobs
        container_name filename = some content
    ∧ (upload_file (upload_file st container_name filename content).2
        container_name filename content).1
      = (upload_file st container_name filename content).1
    ∧ (upload_file (upload_file st container_name filename content).2
        container_name filename content).2
      = (upload_file st container_name filename content).2 := by
  refine ⟨rfl, by simp [upload_file, create_container], rfl, ?_⟩
  apply BlobStore.ext_model
  · funext n
    by_cases h : n = container_name <;>
      simp [upload_file, create_container, h]
  · funext c b
    by_cases hc : c = container_name
    · by_cases hb : b = filename <;>
        simp [upload_file, create_container, hc, hb]
    · simp [upload_file, create_container, hc]
  · rfl

end ConnectDeaf.Storage

namespace ConnectDeaf.Faq

open ConnectDeaf

/-- C2: whenever the chat-completion call fails during QA synthesis (after
a successful search and context assembly), both QA pipelines —
`FAQService._generate_response` and `FaqUseCase._generate_response` —
return the literal fixed apology string as a normal value, and both
`/api/faq/chat` routes answer it as a 200 response, never a 5xx. -/
theorem C2_generation_failure_yields_apology (docs : List PyVal)
    (ctx1 ctx2 query e1 e2 : String)
    (chat1 chat2 : Messages → Except String String)
    (hc1 : combined_content_faq docs = .ok ctx1)
    (hchat1 : chat1 (faq_messages ctx1 query) = .error e1)
    (hc2 : combined_content_ai docs = .ok ctx2)
    (hchat2 : chat2 (faquc_messages ctx2 query) = .error e2) :
    faqservice_generate_response (.ok docs) chat1 query = apology
    ∧ chat_faq_route (.ok docs) chat1 query = .ok apology
    ∧ faqusecase_generate_response (.ok docs) chat2 query = apology
    ∧ ai_chat_route (.ok docs) chat2 query = .ok apology := by
  refine ⟨?_, ?_, ?_, ?_⟩ <;>
    simp [faqservice_generate_response, chat_faq_route,
      faqusecase_generate_response, ai_chat_route, hc1, hchat1, hc2, hchat2]

/-- Witness for C2: empty search result, chat completion down. -/
theorem C2_generation_failure_yields_apology_witness :
    faqservice_generate_response (.ok []) (fun _ => .error "APIConnectionError")
        "O que é o ConnectDeaf?" = apology
    ∧ chat_faq_route (.ok []) (fun _ => .error "APIConnectionError")
        "O que é o ConnectDeaf?" = .ok apology
    ∧ faqusecase_generate_response (.ok [])
        (fun _ => .error "APIConnectionError") "O que é o ConnectDeaf?"
        = apology
    ∧ ai_chat_route (.ok []) (fun _ => .error "APIConnectionError")
        "O que é o ConnectDeaf?" = .ok apology :=
  C2_generation_failure_yields_apology [] "" "" "O que é o ConnectDeaf?"
    "APIConnectionError" "APIConnectionError"
    (fun _ => .error "APIConnectionError")
    (fun _ => .error "APIConnectionError") rfl rfl rfl rfl

end ConnectDeaf.Faq

namespace ConnectDeaf.Verify

open ConnectDeaf ConnectDeaf.Storage ConnectDeaf.Faq

/-- A concrete reachable blob store holding one document blob, shared by the
concrete evaluations of the verification pipeline. -/
def stWitness : BlobStore :=
  ⟨fun _ => true,
   fun c b =>
     if c = "documents" then
       if b = "cert.pdf" then some [37, 80, 68, 70] else none
     else none,
   true⟩

/-- A concrete OCR oracle extracting a plausible certificate text. -/
def ocrWitness : Bytes → Except String String :=
  fun _ => .ok "Certificado de João da Silva, registro 12345, válido até 2030."

/-- C3: whenever the OCR stage succeeds but yields blank or whitespace-only
text, `VerifyFileUseCase.execute` raises `HTTPException(500, "Falha na
extração de texto")` without the generation stage ever being entered (for
every generation oracle), and the route surfaces a 500. -/
theorem C3_blank_extraction_500_before_generation (st : BlobStore)
    (ocr : Bytes → Except String String) (gen : Messages → Except String String)
    (document_path professional_name : String) (b : Bytes) (t : String)
    (hdl : download_file st document_path = some b)
    (hne : b.isEmpty = false)
    (hocr : ocr b = .ok t)
    (hblank : pystrip t = "") :
    verify_execute st ocr gen document_path professional_name
      = ⟨.error ⟨500, "Falha na extração de texto"⟩, false⟩
    ∧ exceptStatus
        (verify_file_route st ocr gen document_path professional_name)
      = some 500 := by
  have h1 : verify_execute st ocr gen document_path professional_name
      = ⟨.error ⟨500, "Falha na extração de texto"⟩, false⟩ := by
    simp [verify_execute, verify_ocr, hdl, hne, hocr, hblank]
  exact ⟨h1, by simp [verify_file_route, h1, exceptStatus]⟩

/-- Witness for C3: a stored document whose OCR text is whitespace-only. -/
theorem C3_blank_extraction_500_before_generation_witness :
    verify_execute stWitness (fun _ => .ok "  \t\n ") (fun _ => .ok "Válido")
        "documents/cert.pdf" "João da Silva"
      = ⟨.error ⟨500, "Falha na extração de texto"⟩, false⟩
    ∧ exceptStatus
        (verify_file_route stWitness (fun _ => .ok "  \t\n ")
          (fun _ => .ok "Válido") "documents/cert.pdf" "João da Silva")
      = some 500 :=
  C3_blank_extraction_500_before_generation stWitness _ _
    "documents/cert.pdf" "João da Silva" [37, 80, 68, 70] "  \t\n "
    (by rfl) (by rfl) (by rfl) (by rfl)

/-- C4 counterexample: the claim says the `response` field of a successful
verification is one of exactly `Válido`/`Inválido` for every possible text
returned by the generation service.  With the generation service returning
a different sentence, the pipeline succeeds and returns that sentence
verbatim: the code never constrains the output to the two judgment
strings. -/
theorem C4_judgment_not_constrained_counterexample :
    (verify_execute stWitness ocrWitness
        (fun _ => .ok "O certificado parece consistente.")
        "documents/cert.pdf" "João da Silva").outcome
      = .ok "O certificado parece consistente."
    ∧ "O certificado parece consistente." ≠ "Válido"
    ∧ "O certificado parece consistente." ≠ "Inválido" :=
  ⟨by rfl, by decide, by decide⟩

/-- C4 amended: on a successful run the `response` field is exactly the
generation service's reply with surrounding whitespace stripped; the code
imposes no further constraint, so the field lies in
{`Válido`, `Inválido`} precisely when the stripped reply does. -/
theorem C4_amended_response_is_stripped_generation (st : BlobStore)
    (ocr : Bytes → Except String String) (gen : Messages → Except String String)
    (document_path professional_name : String) (b : Bytes) (t g : String)
    (hdl : download_file st document_path = some b)
    (hne : b.isEmpty = false)
    (hocr : ocr b = .ok t)
    (hnb : ¬ pystrip t = "")
    (hgen : gen (verify_messages t professional_name) = .ok g) :
    (verify_execute st ocr gen document_path professional_name).outcome
      = .ok (pystrip g)
    ∧ (pystrip g = "Válido" ∨ pystrip g = "Inválido" →
        (verify_execute st ocr gen document_path professional_name).outcome
            = .ok "Válido"
        ∨ (verify_execute st ocr gen document_path professional_name).outcome
            = .ok "Inválido") := by
  have h1 : (verify_execute st ocr gen document_path professional_name).outcome
      = .ok (pystrip g) := by
    simp [verify_execute, verify_ocr, verify_generate_response,
      hdl, hne, hocr, hnb, hgen]
  refine ⟨h1, ?_⟩
  rintro (hg | hg) <;> rw [h1, hg]
  · exact Or.inl rfl
  · exact Or.inr rfl

/-- Witness for C4 amended: the model answers `" Válido "` with spaces and
the pipeline returns the stripped `"Válido"`. -/
theorem C4_amended_response_is_stripped_generation_witness :
    (verify_execute stWitness ocrWitness (fun _ => .ok " Válido ")
        "documents/cert.pdf" "João da Silva").outcome = .ok (pystrip " Válido ")
    ∧ (pystrip " Válido " = "Válido" ∨ pystrip " Válido " = "Inválido" →
        (verify_execute stWitness ocrWitness (fun _ => .ok " Válido ")
            "documents/cert.pdf" "João da Silva").outcome = .ok "Válido"
        ∨ (verify_execute stWitness ocrWitness (fun _ => .ok " Válido ")
            "documents/cert.pdf" "João da Silva").outcome = .ok "Inválido") :=
  C4_amended_response_is_stripped_generation stWitness ocrWitness
    (fun _ => .ok " Válido ") "documents/cert.pdf" "João da Silva"
    [37, 80, 68, 70] "Certificado de João da Silva, registro 12345, válido até 2030."
    " Válido " (by rfl) (by rfl) (by rfl) (by decide) (by rfl)

/-- C9: `download_file` is total over its error cases — a path without a
`/`, an unreachable storage service, and a missing blob all return `None`
rather than raising — and `VerifyFileUseCase.execute` turns that `None`
into `HTTPException(404, "Arquivo não encontrado")`.  However, the
`/api/documents/verify_file` route handler wraps `execute` in
`except Exception`, which also catches `fastapi.HTTPException` (a subclass
of `Exception`) and re-raises it as `HTTPException(500, f"Failed: {e}")`:
the HTTP client therefore receives a 500, not the 404 the claim (and spec
section 6) promises. -/
theorem C9_download_failure_404_wrapped_as_500 :
    download_file stWitness "certificado.pdf" = none
    ∧ download_file { stWitness with connectOk := false }
        "documents/cert.pdf" = none
    ∧ download_file stWitness "documents/missing.pdf" = none
    ∧ (verify_execute stWitness ocrWitness (fun _ => .ok "Válido")
        "certificado.pdf" "João da Silva").outcome
      = .error ⟨404, "Arquivo não encontrado"⟩
    ∧ verify_file_route stWitness ocrWitness (fun _ => .ok "Válido")
        "certificado.pdf" "João da Silva"
      = .error ⟨500, "Failed: 404: Arquivo não encontrado"⟩ := by
  refine ⟨?_, ?_, ?_, ?_, ?_⟩ <;> rfl

end ConnectDeaf.Verify

namespace ConnectDeaf.Faq

open ConnectDeaf ConnectDeaf.Json

lemma item_rel_faq (s : String) :
    (match comprehension_item_faq s with
     | .ok (JValue.jstr a) => some a
     | _ => none) = specItem_faq s := by
  unfold comprehension_item_faq specItem_faq
  cases json_loads s with
  | error e => rfl
  | ok v =>
    cases v with
    | jstr t => rfl
    | jobj fs =>
      cases hj : jget fs "answer" with
      | none => simp [hj]
      | some v2 => cases v2 <;> simp [hj]

lemma item_rel_ai (s : String) :
    (match comprehension_item_ai s with
     | .ok (JValue.jstr a) => some a
     | _ => none) = specItem_ai s := by
  unfold comprehension_item_ai specItem_ai
  cases json_loads s with
  | error e => rfl
  | ok v =>
    cases v with
    | jstr t => rfl
    | jobj fs =>
      cases hj : jget fs "answer" with
      | none => simp [hj]
      | some v2 => cases v2 <;> simp [hj]

lemma answers_list_spec (item : String → Except String JValue)
    (specIt : String → Option String)
    (hrel : ∀ s, (match item s with
                  | .ok (JValue.jstr a) => some a
                  | _ => none) = specIt s) :
    ∀ strs : List String,
    (match answers_list item strs with
     | .error _ => none
     | .ok vs => allStrings vs) = extractStrs specIt strs := by
  intro strs
  induction strs with
  | nil => rfl
  | cons s rest ih =>
    have hs := hrel s
    cases hitem : item s with
    | error e =>
      rw [hitem] at hs
      simp only [answers_list, extractStrs, hitem, ← hs]
    | ok v =>
      cases v with
      | jstr a =>
        rw [hitem] at hs
        cases hrest : answers_list item rest with
        | error e2 =>
          rw [hrest] at ih
          simp only [answers_list, extractStrs, hitem, hrest, ← hs, ← ih]
        | ok vs =>
          rw [hrest] at ih
          simp only [answers_list, extractStrs, hitem, hrest, ← hs, ← ih,
            allStrings]
          cases allStrings vs <;> simp
      | jobj fs =>
        rw [hitem] at hs
        cases hrest : answers_list item rest with
        | error e2 =>
          simp only [answers_list, extractStrs, hitem, hrest, ← hs]
        | ok vs =>
          simp only [answers_list, extractStrs, hitem, hrest, ← hs,
            allStrings]

lemma combined_toOption (item : String → Except String JValue)
    (specIt : String → Option String)
    (hrel : ∀ s, (match item s with
                  | .ok (JValue.jstr a) => some a
                  | _ => none) = specIt s)
    (strs : List String) :
    (match answers_list item strs with
     | .error e => Except.error e
     | .ok vs => join_strs vs).toOption
      = (extractStrs specIt strs).map (String.intercalate " ") := by
  have h := answers_list_spec item specIt hrel strs
  cases hres : answers_list item strs with
  | error e =>
    rw [hres] at h
    simp [← h, Except.toOption]
  | ok vs =>
    rw [hres] at h
    simp only [join_strs, ← h]
    cases allStrings vs <;> simp [Except.toOption]

/-- C5 counterexample: the claim says context assembly skips — never fails
on — entries whose content is unparseable JSON or misses the `answer` key.
On the single-entry column `["\x7b\x7d"]` the FAQService comprehension
raises `KeyError` instead of skipping, so the whole QA pipeline degrades to
the apology even though the chat completion is healthy; on unparseable
content it raises a decode error; and the ai-api variant joins the
`.get` default `""` for a missing key instead of skipping it, producing
`"a "` where the claim's assembler (which does skip) produces `"a"`. -/
theorem C5_entries_not_skipped_counterexample :
    combined_content_faq [PyVal.pstr "\x7b\x7d"] = .error "KeyError: answer"
    ∧ combined_content_claim [PyVal.pstr "\x7b\x7d"] = ""
    ∧ faqservice_generate_response (.ok [PyVal.pstr "\x7b\x7d"])
        (fun _ => .ok "resposta do modelo") "Oi" = apology
    ∧ combined_content_faq [PyVal.pstr "not json"]
        = .error "JSONDecodeError: Expecting value"
    ∧ combined_content_ai
        [PyVal.pstr "\x7b\"answer\": \"a\"\x7d", PyVal.pstr "\x7b\x7d"]
        = .ok "a "
    ∧ combined_content_claim
        [PyVal.pstr "\x7b\"answer\": \"a\"\x7d", PyVal.pstr "\x7b\x7d"]
        = "a" := by
  refine ⟨?_, ?_, ?_, ?_, ?_, ?_⟩ <;> rfl

/-- C5 amended: context assembly drops non-string column entries and joins
the extracted `answer` strings with a single space in the original ranking
order, but it is NOT tolerant: the assembled result exists exactly when
every string entry parses as a JSON object whose `answer` extraction
succeeds (FAQService requires the key with a string value; the ai-api
variant substitutes `""` for a missing key), and any other entry makes the
assembly raise — the surrounding handler then converts the whole request to
the apology fallback rather than skipping the entry. -/
theorem C5_amended_assembly_joins_in_order (docs : List PyVal) :
    (combined_content_faq docs).toOption
      = (extractAnswers specItem_faq docs).map (String.intercalate " ")
    ∧ (combined_content_ai docs).toOption
      = (extractAnswers specItem_ai docs).map (String.intercalate " ") :=
  ⟨combined_toOption comprehension_item_faq specItem_faq item_rel_faq
      (pyval_strings docs),
   combined_toOption comprehension_item_ai specItem_ai item_rel_ai
      (pyval_strings docs)⟩

end ConnectDeaf.Faq
